import Mathlib

/-!
Verification of the trend-intelligence-dashboard repository.

This file shallowly embeds the parts of the repository that the checked
statements are about:

* the PostgreSQL schema (`db/schema.sql`),
* the Dashboard page's client-side display computation,
* the Excel import parser (`ExcelImportModal.parseFile`),
* the frontend error-handling paths (axios interceptors, feedback handler),
* the backend trend-scoring and AI-analysis behaviour (the backend Python
  sources are not part of the source tree; those two are modelled from the
  backend README, as marked on each definition),
* the REST endpoint groups documented by the README files versus those the
  frontend api modules call.
-/

namespace TrendDashboard

/-! ### SQL schema embedding (db/schema.sql) -/

/-- A column of a SQL table: its name, whether it is declared `NOT NULL`
(`SERIAL PRIMARY KEY` columns count as not-null), and whether it carries a
`DEFAULT` clause.  Transcribed from `db/schema.sql`. -/
structure SqlColumn where
  cname : String
  notNull : Bool
  hasDefault : Bool
deriving DecidableEq

/-- A table-level invariant declared in `db/schema.sql`: a primary key, a
uniqueness constraint, a foreign-key reference, or a `CHECK (col IN (...))`
constraint. -/
inductive SqlTableConstraint where
  | primaryKey (column : String)
  | uniqueCols (columns : List String)
  | foreignKey (column refTable refColumn : String) (onDeleteCascade : Bool)
  | checkIn (checkName : String) (column : String) (allowed : List String)
deriving DecidableEq

/-- A table of `db/schema.sql`: its name, columns, and declared constraints. -/
structure SqlTable where
  tname : String
  columns : List SqlColumn
  constraints : List SqlTableConstraint
deriving DecidableEq

/-- The `trend_items` table, `db/schema.sql` lines 7-44. -/
def trendItemsTable : SqlTable :=
  { tname := "trend_items"
    columns :=
      [⟨"id", true, true⟩, ⟨"url", true, false⟩, ⟨"source_platform", true, false⟩,
       ⟨"image_url", false, false⟩, ⟨"submitted_by", true, false⟩,
       ⟨"submitted_at", false, true⟩, ⟨"category", false, false⟩,
       ⟨"subcategory", false, false⟩, ⟨"colors", false, false⟩,
       ⟨"patterns", false, false⟩, ⟨"style_tags", false, false⟩,
       ⟨"price_point", false, false⟩, ⟨"likes", false, true⟩,
       ⟨"comments", false, true⟩, ⟨"shares", false, true⟩, ⟨"views", false, true⟩,
       ⟨"engagement_rate", false, true⟩, ⟨"trend_score", false, true⟩,
       ⟨"velocity_score", false, true⟩, ⟨"cross_platform_score", false, true⟩,
       ⟨"scraped_at", false, false⟩, ⟨"last_updated", false, true⟩,
       ⟨"status", false, true⟩, ⟨"ai_analysis_text", false, false⟩]
    constraints :=
      [.primaryKey "id", .uniqueCols ["url"],
       .checkIn "status_check" "status" ["active", "archived", "flagged"]] }

/-- The `trend_metrics_history` table, `db/schema.sql` lines 58-67. -/
def trendMetricsHistoryTable : SqlTable :=
  { tname := "trend_metrics_history"
    columns :=
      [⟨"id", true, true⟩, ⟨"trend_item_id", true, false⟩,
       ⟨"recorded_at", false, true⟩, ⟨"likes", false, true⟩,
       ⟨"comments", false, true⟩, ⟨"shares", false, true⟩, ⟨"views", false, true⟩,
       ⟨"trend_score", false, true⟩]
    constraints :=
      [.primaryKey "id", .foreignKey "trend_item_id" "trend_items" "id" true] }

/-- The `mood_boards` table, `db/schema.sql` lines 75-84. -/
def moodBoardsTable : SqlTable :=
  { tname := "mood_boards"
    columns :=
      [⟨"id", true, true⟩, ⟨"title", true, false⟩, ⟨"description", false, false⟩,
       ⟨"created_by", true, false⟩, ⟨"created_at", false, true⟩,
       ⟨"updated_at", false, true⟩, ⟨"category", false, false⟩,
       ⟨"items", false, true⟩]
    constraints := [.primaryKey "id"] }

/-- The `trending_hashtags` table, `db/schema.sql` lines 92-101. -/
def trendingHashtagsTable : SqlTable :=
  { tname := "trending_hashtags"
    columns :=
      [⟨"id", true, true⟩, ⟨"hashtag", true, false⟩, ⟨"platform", true, false⟩,
       ⟨"mention_count", false, true⟩, ⟨"growth_rate", false, true⟩,
       ⟨"first_seen", false, true⟩, ⟨"last_updated", false, true⟩]
    constraints := [.primaryKey "id", .uniqueCols ["hashtag", "platform"]] }

/-- The `monitoring_targets` table, `db/schema.sql` lines 109-119. -/
def monitoringTargetsTable : SqlTable :=
  { tname := "monitoring_targets"
    columns :=
      [⟨"id", true, true⟩, ⟨"type", true, false⟩, ⟨"value", true, false⟩,
       ⟨"platform", true, false⟩, ⟨"active", false, true⟩,
       ⟨"added_by", true, false⟩, ⟨"added_at", false, true⟩]
    constraints :=
      [.primaryKey "id",
       .checkIn "type_check" "type" ["hashtag", "account", "keyword", "color", "style"]] }

/-- All tables created by `db/schema.sql`, in declaration order. -/
def schemaTables : List SqlTable :=
  [trendItemsTable, trendMetricsHistoryTable, moodBoardsTable,
   trendingHashtagsTable, monitoringTargetsTable]

/-- The names of the tables `db/schema.sql` creates. -/
def schemaTableNames : List String := schemaTables.map (·.tname)

/-- Whether a declared constraint is a foreign-key or a uniqueness constraint
(a `PRIMARY KEY` is a uniqueness constraint). -/
def isFkOrUnique : SqlTableConstraint → Bool
  | .primaryKey _ => true
  | .uniqueCols _ => true
  | .foreignKey _ _ _ _ => true
  | .checkIn _ _ _ => false

/-- Whether a declared constraint is a `CHECK` constraint. -/
def isCheck : SqlTableConstraint → Bool
  | .checkIn _ _ _ => true
  | _ => false

/-- All `CHECK` constraints declared anywhere in the schema. -/
def schemaCheckConstraints : List SqlTableConstraint :=
  (schemaTables.map SqlTable.constraints).flatten.filter isCheck

/-! ### Dashboard page display computation (frontend `pages/Dashboard.tsx`) -/

/-- A frontend trend item, restricted to the fields the Dashboard display
computation reads (`types/index.ts`, `interface TrendItem`).  `trend_score`
and `engagement_count` are JavaScript numbers used only for comparisons and
are modelled as integers; `created_at` is modelled as the epoch-milliseconds
value `new Date(t.created_at).getTime()` that the sort comparator uses. -/
structure TrendItem where
  id : String
  url : String
  platform : String
  category : String
  colors : List String
  style_tags : List String
  trend_score : Int
  engagement_count : Int
  created_at : Nat
deriving DecidableEq

/-- The six hard-coded mock trends of `pages/Dashboard.tsx` (`mockTrends`,
lines 8-93).  All six are created with `new Date().toISOString()` at module
load, modelled as the common timestamp `0`. -/
def mockTrends : List TrendItem :=
  [⟨"1", "https://instagram.com/p/abc123", "Instagram", "Dresses",
     ["pink", "white", "beige"], ["Y2K", "Maxi", "Summer"], 92, 145000, 0⟩,
   ⟨"2", "https://tiktok.com/video/def456", "TikTok", "Tops",
     ["black", "white"], ["Crop Top", "Mesh", "Edgy"], 87, 234000, 0⟩,
   ⟨"3", "https://instagram.com/p/ghi789", "Instagram", "Accessories",
     ["gold", "pink"], ["Jewelry", "Statement", "Luxury"], 78, 98000, 0⟩,
   ⟨"4", "https://shein.com/product/jkl012", "SHEIN", "Pants",
     ["pink", "purple"], ["Cargo", "Baggy", "Streetwear"], 85, 167000, 0⟩,
   ⟨"5", "https://fashionova.com/p/mno345", "Fashion Nova", "Outfits",
     ["black", "white", "beige"], ["Bodysuit", "Sexy", "Monochrome"], 81, 212000, 0⟩,
   ⟨"6", "https://instagram.com/p/pqr678", "Instagram", "Footwear",
     ["white", "pink", "purple"], ["Sneakers", "Platform", "Chunky"], 76, 123000, 0⟩]

/-- Ordering used by the comparator `(a, b) => b.trend_score - a.trend_score`:
`a` may come before `b` exactly when `a`'s score is at least `b`'s. -/
def byScore (a b : TrendItem) : Prop := b.trend_score ≤ a.trend_score

/-- Ordering used by `(a, b) => b.engagement_count - a.engagement_count`. -/
def byEngagement (a b : TrendItem) : Prop := b.engagement_count ≤ a.engagement_count

/-- Ordering used by the comparator
`(a, b) => new Date(b.created_at).getTime() - new Date(a.created_at).getTime()`. -/
def byRecent (a b : TrendItem) : Prop := b.created_at ≤ a.created_at

instance : DecidableRel byScore :=
  fun a b => inferInstanceAs (Decidable (b.trend_score ≤ a.trend_score))

instance : DecidableRel byEngagement :=
  fun a b => inferInstanceAs (Decidable (b.engagement_count ≤ a.engagement_count))

instance : DecidableRel byRecent :=
  fun a b => inferInstanceAs (Decidable (b.created_at ≤ a.created_at))

instance : IsTotal TrendItem byScore :=
  ⟨fun a b => le_total b.trend_score a.trend_score⟩

instance : IsTotal TrendItem byEngagement :=
  ⟨fun a b => le_total b.engagement_count a.engagement_count⟩

instance : IsTotal TrendItem byRecent :=
  ⟨fun a b => le_total b.created_at a.created_at⟩

instance : IsTrans TrendItem byScore :=
  ⟨fun _ _ _ h1 h2 => le_trans h2 h1⟩

instance : IsTrans TrendItem byEngagement :=
  ⟨fun _ _ _ h1 h2 => le_trans h2 h1⟩

instance : IsTrans TrendItem byRecent :=
  ⟨fun _ _ _ h1 h2 => le_trans h2 h1⟩

/-- The category/platform filtering step of the Dashboard effect
(`pages/Dashboard.tsx` lines 107-113): a filter is applied exactly when the
corresponding selector holds a non-empty (truthy) string. -/
def filterTrends (category platform : String) (ts : List TrendItem) : List TrendItem :=
  let f1 := if category = "" then ts else ts.filter fun t => t.category = category
  if platform = "" then f1 else f1.filter fun t => t.platform = platform

/-- The sorting step of the Dashboard effect (`pages/Dashboard.tsx` lines
115-121): an in-place stable sort by the comparator selected by `sortBy`,
modelled by insertion sort (stable) over the comparator's ordering. -/
def sortTrends (sortBy : String) (ts : List TrendItem) : List TrendItem :=
  if sortBy = "score" then List.insertionSort byScore ts
  else if sortBy = "engagement" then List.insertionSort byEngagement ts
  else if sortBy = "recent" then List.insertionSort byRecent ts
  else ts

/-- The display-list computation of the original Dashboard's `useEffect`
(`pages/Dashboard.tsx` lines 104-124): substitute the hard-coded mock trends
when the fetched list is empty, then filter by category and platform, then
sort by the selected key. -/
def computeDisplay (fetched : List TrendItem) (category platform sortBy : String) :
    List TrendItem :=
  let finalTrends := if fetched.length > 0 then fetched else mockTrends
  sortTrends sortBy (filterTrends category platform finalTrends)

/-- The display-list computation of the reworked Dashboard's `useEffect`
(the version with demographics and recommendations, lines 59-71): no mock
substitution and no client-side filtering, only the sort. -/
def computeDisplayV2 (fetched : List TrendItem) (sortBy : String) : List TrendItem :=
  sortTrends sortBy fetched

/-! ### Excel import parser (`components/ExcelImportModal.tsx`, `parseFile`) -/

/-- JavaScript `s.startsWith(p)`, modelled as a character-list prefix test. -/
def strStartsWith (s p : String) : Bool := p.data.isPrefixOf s.data

/-- A row of the import preview produced by `parseFile`:
`rows.push({ name, url, index: i })`. -/
structure ParsedRow where
  name : String
  url : String
  index : Nat
deriving DecidableEq

/-- The outcome of `parseFile`: the parsed preview rows and the error (or
skipped-rows warning) message, `none` when `setError` is left at `''`. -/
structure ParseResult where
  rows : List ParsedRow
  errorMsg : Option String
deriving DecidableEq

/-- The auto-prepend step of `parseFile`: `https://` is prepended when the
URL has neither protocol (`ExcelImportModal.tsx` lines 580-583). -/
def fixProtocol (u : String) : String :=
  if strStartsWith u "http://" || strStartsWith u "https://" then u else "https://" ++ u

/-- How the body of the `parseFile` data-row loop disposes of one raw row:
skipped silently, skipped with an issue message, or accepted as a preview
row. -/
inductive RowStep where
  | skip
  | issue (msg : String)
  | accept (r : ParsedRow)
deriving DecidableEq

/-- One iteration of the `parseFile` data-row loop (`ExcelImportModal.tsx`
lines 562-586) on the raw row at 0-based index `i`: empty rows and fully
empty name/URL cells are skipped, a missing name or missing URL is skipped
with an issue message, and otherwise the trimmed name and protocol-fixed URL
are accepted.  A cell is read as `String(row[j] || '')`, modelled by `getD`
with default `""`. -/
def parseRow (i : Nat) (row : List String) : RowStep :=
  if row.length = 0 then .skip
  else if (row.getD 0 "").trim = "" ∧ (row.getD 1 "").trim = "" then .skip
  else if (row.getD 0 "").trim = "" then
    .issue ("Row " ++ toString (i + 1) ++ ": missing site name")
  else if (row.getD 1 "").trim = "" then
    .issue ("Row " ++ toString (i + 1) ++ " (" ++ (row.getD 0 "").trim ++ "): missing URL")
  else .accept ⟨(row.getD 0 "").trim, fixProtocol ((row.getD 1 "").trim), i⟩

/-- Fold one loop-iteration outcome into the accumulated
(accepted rows, issue messages) pair. -/
def stepAccum : RowStep → List ParsedRow × List String → List ParsedRow × List String
  | .skip, acc => acc
  | .issue m, acc => (acc.1, m :: acc.2)
  | .accept r, acc => (r :: acc.1, acc.2)

/-- The whole `parseFile` data-row loop over the rows after the header,
starting at raw index `i = 1`: the accepted rows and the issue messages of
skipped rows, both in encounter order. -/
def parseRows : Nat → List (List String) → List ParsedRow × List String
  | _, [] => ([], [])
  | i, row :: rest => stepAccum (parseRow i row) (parseRows (i + 1) rest)

/-- The `parseFile` function of `ExcelImportModal.tsx` (lines 541-604), on the
spreadsheet already decoded to a row-major list of cell strings (`rawData`).
An input with fewer than two rows errors out; otherwise the data rows are
parsed, an empty result errors out, and a non-empty issue list produces a
skipped-rows warning message. -/
def parseFile (rawData : List (List String)) : ParseResult :=
  if rawData.length < 2 then
    { rows := []
      errorMsg := some "File must have a header row plus at least one data row." }
  else if (parseRows 1 (rawData.drop 1)).1.length = 0 then
    { rows := []
      errorMsg :=
        some "No valid rows found. Make sure column A has site names and column B has URLs." }
  else if (parseRows 1 (rawData.drop 1)).2.length > 0 then
    { rows := (parseRows 1 (rawData.drop 1)).1
      errorMsg :=
        some (toString (parseRows 1 (rawData.drop 1)).2.length ++ " row(s) skipped: "
          ++ String.intercalate "; " ((parseRows 1 (rawData.drop 1)).2.take 3)
          ++ if (parseRows 1 (rawData.drop 1)).2.length > 3 then "..." else "") }
  else { rows := (parseRows 1 (rawData.drop 1)).1, errorMsg := none }

/-! ### Frontend error-handling paths (`api/client.ts`, `TrendCard.tsx`) -/

/-- Observable effects of the axios response-error interceptor on a failed
request: whether it clears `auth_token` from local storage, where it sets
`window.location.href` (if anywhere), whether it logs a console warning, and
whether it re-rejects the error to the caller. -/
structure InterceptorEffects where
  removedAuthToken : Bool
  redirectedTo : Option String
  loggedWarning : Bool
  rejected : Bool
deriving DecidableEq

/-- The response-error interceptor of the original `api/client.ts` (lines
31-37): a 401 clears the auth token and redirects the browser to `/login`;
every error is re-rejected. -/
def responseErrorInterceptor (status : Option Nat) : InterceptorEffects :=
  if status = some 401 then
    { removedAuthToken := true, redirectedTo := some "/login",
      loggedWarning := false, rejected := true }
  else
    { removedAuthToken := false, redirectedTo := none,
      loggedWarning := false, rejected := true }

/-- The response-error interceptor of the reworked `api/client.ts` (the
version with the 30s timeout): a 401 only logs a console warning, and every
error is re-rejected. -/
def responseErrorInterceptorV2 (status : Option Nat) : InterceptorEffects :=
  if status = some 401 then
    { removedAuthToken := false, redirectedTo := none,
      loggedWarning := true, rejected := true }
  else
    { removedAuthToken := false, redirectedTo := none,
      loggedWarning := false, rejected := true }

/-- A thumbs-up / thumbs-down feedback choice in `TrendCard.tsx`. -/
inductive FeedbackChoice where
  | up
  | down
deriving DecidableEq

/-- What an error-handling path does with a failure. -/
inductive ErrorAction where
  | silentIgnore
  | setErrorMessage
deriving DecidableEq

/-- The `handleFeedback` handler of the reworked `TrendCard.tsx` (lines
24-32): toggles the local feedback state, then calls the feedback API; an API
failure is caught by an empty catch block ("Silently fail — feedback is
non-critical").  Returns the new feedback state together with the action
taken on an API failure, if the call failed. -/
def handleFeedback (current : Option FeedbackChoice) (clicked : FeedbackChoice)
    (apiFails : Bool) : Option FeedbackChoice × Option ErrorAction :=
  let newType := if current = some clicked then none else some clicked
  (newType, if apiFails then some .silentIgnore else none)

/-- The catch branch of `useTrends`'s fetch (`hooks/useTrends.ts` lines
23-24): the failure is recorded as an error message in component state. -/
def useTrendsErrorAction : ErrorAction := .setErrorMessage

/-- The catch branch of the reworked Dashboard's recommendations fetch,
`getRecommendations('pending').then(...).catch(() => {})`. -/
def recommendationsFetchErrorAction : ErrorAction := .silentIgnore

/-! ### Backend scoring and AI analysis (modelled from the backend README)

The backend Python sources (`app/services/scoring_service.py`,
`app/services/ai_service.py`, `app/api/trends.py`) are not part of the source
tree; only the backend README and the API-examples document describe them. -/

/-- Clamp a rational into an interval. -/
def clampRat (lo hi x : Rat) : Rat := max lo (min hi x)

/-- Modelled from the spec: the engagement-score factor of
`scoring_service.py` (absent from the tree); per the backend README, an
engagement score in 0-100 based on normalized likes, comments, shares and
views.  The normalized raw value is clamped into the documented range. -/
def engagementScore (normalized : Rat) : Rat := clampRat 0 100 normalized

/-- Modelled from the spec: the velocity factor of `scoring_service.py`
(absent from the tree); per the backend README, a 1.0-3.0x multiplier from
the growth rate over 24 hours. -/
def velocityMultiplier (growth24h : Rat) : Rat := clampRat 1 3 growth24h

/-- Modelled from the spec: the recency factor of `scoring_service.py`
(absent from the tree); per the backend README, a 1.0-1.5x boost for recent
trends. -/
def recencyFactor (recency : Rat) : Rat := clampRat 1 (3 / 2) recency

/-- Modelled from the spec: the cross-platform bonus of `scoring_service.py`
(absent from the tree); per the backend README, extra (non-negative) points
for items appearing on multiple platforms. -/
def crossPlatformBonus (extraPlatforms : Nat) (pointsPerPlatform : Rat) : Rat :=
  extraPlatforms * max 0 pointsPerPlatform

/-- Modelled from the spec: the final trend score of `scoring_service.py`
(absent from the tree); per the backend README it combines all factors —
engagement score times velocity multiplier times recency factor, plus the
cross-platform bonus — and is capped at 100. -/
def finalTrendScore (normalized growth24h recency : Rat) (extraPlatforms : Nat)
    (pointsPerPlatform : Rat) : Rat :=
  min 100
    (engagementScore normalized * velocityMultiplier growth24h * recencyFactor recency
      + crossPlatformBonus extraPlatforms pointsPerPlatform)

/-- The result of AI analysis of a submitted trend (backend README "AI
Analysis" section): category, colors, patterns, style tags, price point, and
a narrative analysis text. -/
structure TrendAnalysis where
  category : String
  colors : List String
  patterns : List String
  styleTags : List String
  pricePoint : String
  analysisText : String
deriving DecidableEq

/-- Modelled from the spec: the mock analysis of `ai_service.py` (absent from
the tree); per the backend README's mock mode it produces realistic mock
fashion data — a fashion category, colors, patterns, style tags and a price
point from the documented example lists. -/
def mockAnalysis (url : String) : TrendAnalysis :=
  { category := "midi dress"
    colors := ["navy blue", "cream"]
    patterns := ["floral"]
    styleTags := ["cottagecore", "y2k"]
    pricePoint := "mid"
    analysisText := "Mock analysis for " ++ url }

/-- Modelled from the spec: the analysis entry point of `ai_service.py`
(absent from the tree); per the backend README, mock mode always returns mock
data, and real mode uses the Claude API result but falls back to mock mode if
the Claude API fails.  The Claude call's outcome is passed in as an
`Except`. -/
def analyzeTrend (useMockAI : Bool) (claudeResult : Except String TrendAnalysis)
    (url : String) : TrendAnalysis :=
  if useMockAI then mockAnalysis url
  else
    match claudeResult with
    | .ok a => a
    | .error _ => mockAnalysis url

/-! ### Trend submission against the `trend_items` table -/

/-- A stored `trend_items` row, restricted to the identity and the `url`
column governed by the `UNIQUE NOT NULL` declaration. -/
structure TrendRowDB where
  id : Nat
  url : String
deriving DecidableEq

/-- The uniqueness invariant the `url UNIQUE` declaration imposes on
`trend_items`: no two rows share a `url`. -/
def UrlsUnique (db : List TrendRowDB) : Prop := (db.map (·.url)).Nodup

instance (db : List TrendRowDB) : Decidable (UrlsUnique db) := by
  unfold UrlsUnique
  infer_instance

/-- Modelled from the spec: the `POST /api/trends/submit` handler of
`app/api/trends.py` (absent from the tree); per the backend API-examples
document, submitting a URL that is already present fails with HTTP 400
`"URL already submitted"`, and otherwise the trend row is inserted. -/
def submitTrend (db : List TrendRowDB) (newId : Nat) (url : String) :
    Except (Nat × String) (List TrendRowDB) :=
  if db.any fun r => r.url = url then Except.error (400, "URL already submitted")
  else Except.ok (db ++ [⟨newId, url⟩])

/-! ### REST surface: documented endpoint groups versus called ones -/

/-- The endpoint path groups documented in the backend README's
"API Endpoints" section (lines 112-140): trends, mood boards, monitoring,
dashboard, and the health/root endpoints. -/
def backendReadmeEndpointGroups : List String :=
  ["trends", "moodboards", "monitoring", "dashboard", "health", "root"]

/-- The endpoint path groups documented in the frontend README's
"API Endpoints Expected" section (lines 171-192). -/
def frontendReadmeEndpointGroups : List String :=
  ["trends", "moodboards", "monitoring", "dashboard"]

/-- All endpoint path groups appearing in either README's endpoint
documentation. -/
def readmeDocumentedEndpointGroups : List String :=
  backendReadmeEndpointGroups ++ frontendReadmeEndpointGroups

/-- The endpoint path groups the frontend api modules call: `api/trends.ts`
(`/trends/...`), `api/moodboards.ts` (`/moodboards/...`), `api/recommendations.ts`
(`/recommendations/...` and `/monitoring/...`), `api/dashboard.ts`
(`/dashboard/summary`), `api/sources.ts` (`/sources/...`), `api/people.ts`
(`/people/...`), `api/feed.ts` (`/feed/...`), and `api/insights.ts`
(`/api/insights...`). -/
def frontendCalledEndpointGroups : List String :=
  ["trends", "moodboards", "monitoring", "dashboard",
   "recommendations", "sources", "people", "feed", "insights"]

/-! ### Claims -/

/-- C1: for every trend item, the final trend score produced by the trend
scoring algorithm — engagement normalization (0-100), velocity multiplier
(1.0-3.0x), recency factor (1.0-1.5x), cross-platform bonus — is at most 100:
the combination of all factors is capped at 100 (and is never negative). -/
theorem trend_score_capped_at_100 (normalized growth24h recency : Rat)
    (extraPlatforms : Nat) (pointsPerPlatform : Rat) :
    finalTrendScore normalized growth24h recency extraPlatforms pointsPerPlatform ≤ 100
    ∧ 0 ≤ finalTrendScore normalized growth24h recency extraPlatforms pointsPerPlatform := by
  constructor
  · exact min_le_left _ _
  · apply le_min (by norm_num)
    apply add_nonneg
    · apply mul_nonneg (mul_nonneg ?_ ?_) ?_
      · exact le_max_left 0 _
      · exact le_trans zero_le_one (le_max_left 1 _)
      · exact le_trans zero_le_one (le_max_left 1 _)
    · exact mul_nonneg (by positivity) (le_max_left 0 _)

/-- C2: when real AI mode is active (`USE_MOCK_AI=False`) and the Claude API
call fails, the AI-analysis operation returns the mock analysis instead of
propagating the failure, and a successful Claude result is used as-is:
analysis always produces a `TrendAnalysis`, falling back to mock on error. -/
theorem ai_analysis_falls_back_to_mock (e url : String) :
    analyzeTrend false (Except.error e) url = mockAnalysis url
    ∧ ∀ a : TrendAnalysis, analyzeTrend false (Except.ok a) url = a :=
  ⟨rfl, fun _ => rfl⟩

/-- C3 counterexample: it is false that every constraint the SQL schema
declares is a foreign-key or uniqueness constraint — the schema's
`trend_items` table declares the `CHECK` constraint `status_check`, which is
neither (and `monitoring_targets` likewise declares `type_check`). -/
theorem schema_constraint_not_fk_or_unique :
    SqlTableConstraint.checkIn "status_check" "status" ["active", "archived", "flagged"]
      ∈ trendItemsTable.constraints
    ∧ trendItemsTable ∈ schemaTables
    ∧ isFkOrUnique
        (SqlTableConstraint.checkIn "status_check" "status"
          ["active", "archived", "flagged"]) = false
    ∧ (schemaTables.all fun t => t.constraints.all isFkOrUnique) = false :=
  ⟨by decide, by decide, rfl, rfl⟩

/-- C3 amended: every invariant the schema imposes is a foreign-key,
uniqueness (primary key or `UNIQUE`), or `CHECK` constraint, and the `CHECK`
constraints are exactly `status_check` (restricting `trend_items.status`) and
`type_check` (restricting `monitoring_targets.type`). -/
theorem schema_constraints_fk_unique_or_check :
    (schemaTables.all fun t => t.constraints.all fun c => isFkOrUnique c || isCheck c) = true
    ∧ schemaCheckConstraints =
        [.checkIn "status_check" "status" ["active", "archived", "flagged"],
         .checkIn "type_check" "type" ["hashtag", "account", "keyword", "color", "style"]] :=
  ⟨rfl, rfl⟩

/-- C5 counterexample: the SQL schema has no `sources` table and no `people`
table, so it is false that each of the five entities trend_items,
mood_boards, monitoring_targets, sources, people has a table in the schema. -/
theorem schema_lacks_sources_and_people_tables :
    schemaTableNames.contains "sources" = false
    ∧ schemaTableNames.contains "people" = false :=
  ⟨rfl, rfl⟩

/-- C5 amended: the SQL schema defines exactly the tables `trend_items`,
`trend_metrics_history`, `mood_boards`, `trending_hashtags`, and
`monitoring_targets`; of the five entities named by the spec, trend_items,
mood_boards and monitoring_targets have tables, while sources and people do
not. -/
theorem schema_tables_enumerated :
    schemaTableNames =
      ["trend_items", "trend_metrics_history", "mood_boards",
       "trending_hashtags", "monitoring_targets"]
    ∧ schemaTableNames.contains "trend_items" = true
    ∧ schemaTableNames.contains "mood_boards" = true
    ∧ schemaTableNames.contains "monitoring_targets" = true :=
  ⟨rfl, rfl, rfl, rfl⟩

/-- C6: in the Dashboard page, whenever the fetched trend list is empty, the
displayed trend list is computed from the six hard-coded mock trends —
filtered by the selected category and platform and sorted by the selected
key — so a fetch that returned zero items never yields a backend-derived
empty display. -/
theorem dashboard_empty_fetch_uses_mocks (category platform sortBy : String) :
    computeDisplay [] category platform sortBy
      = sortTrends sortBy (filterTrends category platform mockTrends)
    ∧ mockTrends.length = 6 :=
  ⟨rfl, rfl⟩

/-- C7: the `url` column of `trend_items` is declared `UNIQUE NOT NULL`, so
any state satisfying the induced invariant has pairwise distinct urls;
submitting a trend whose URL is already present fails with HTTP 400
"URL already submitted", and a successful submit inserts exactly one row and
preserves the uniqueness invariant. -/
theorem url_unique_and_duplicate_submit_rejected (db : List TrendRowDB)
    (newId : Nat) (url : String) (h : UrlsUnique db) :
    SqlTableConstraint.uniqueCols ["url"] ∈ trendItemsTable.constraints
    ∧ (⟨"url", true, false⟩ : SqlColumn) ∈ trendItemsTable.columns
    ∧ ((∃ r ∈ db, r.url = url) →
        submitTrend db newId url = Except.error (400, "URL already submitted"))
    ∧ (∀ db2, submitTrend db newId url = Except.ok db2 →
        UrlsUnique db2 ∧ db2.length = db.length + 1) := by
  refine ⟨by decide, by decide, ?_, ?_⟩
  · rintro ⟨r, hr, hurl⟩
    have hany : (db.any fun r => r.url = url) = true :=
      List.any_eq_true.mpr ⟨r, hr, by simp [hurl]⟩
    simp [submitTrend, hany]
  · intro db2 hok
    unfold submitTrend at hok
    by_cases hany : (db.any fun r => r.url = url) = true
    · rw [if_pos hany] at hok
      exact absurd hok (by simp)
    · rw [if_neg hany] at hok
      have hdb2 : db2 = db ++ [⟨newId, url⟩] := (Except.ok.injEq _ _).mp hok.symm
      subst hdb2
      constructor
      · have hnotmem : url ∉ db.map (·.url) := by
          intro hmem
          rcases List.mem_map.mp hmem with ⟨r, hr, hru⟩
          exact hany (List.any_eq_true.mpr ⟨r, hr, by simp [hru]⟩)
        have : (db ++ [⟨newId, url⟩] : List TrendRowDB).map (·.url)
            = db.map (·.url) ++ [url] := by simp
        unfold UrlsUnique
        rw [this]
        exact List.Nodup.append h (List.nodup_singleton url)
          (List.disjoint_singleton.mpr hnotmem)
      · simp

/-- Witness for C7 at a concrete one-row database: the duplicate URL is
rejected with 400. -/
theorem url_unique_submit_witness :
    UrlsUnique [⟨1, "https://a.com"⟩]
    ∧ submitTrend [⟨1, "https://a.com"⟩] 2 "https://a.com"
        = Except.error (400, "URL already submitted") := by
  have h := url_unique_and_duplicate_submit_rejected [⟨1, "https://a.com"⟩] 2
    "https://a.com" (by decide)
  exact ⟨by decide, h.2.2.1 ⟨⟨1, "https://a.com"⟩, List.mem_singleton.mpr rfl, rfl⟩⟩

/-- C10 counterexample: the frontend calls the feed, insights,
recommendations, sources and people endpoint groups, but none of them
appears in the endpoint documentation of either README, so it is false that
the READMEs document every endpoint group the frontend calls. -/
theorem feed_insights_recommendations_not_in_readmes :
    frontendCalledEndpointGroups.contains "feed" = true
    ∧ readmeDocumentedEndpointGroups.contains "feed" = false
    ∧ readmeDocumentedEndpointGroups.contains "insights" = false
    ∧ readmeDocumentedEndpointGroups.contains "recommendations" = false
    ∧ readmeDocumentedEndpointGroups.contains "sources" = false
    ∧ readmeDocumentedEndpointGroups.contains "people" = false :=
  ⟨rfl, rfl, rfl, rfl, rfl, rfl⟩

/-- C10 amended: the README files document the trends, moodboards,
monitoring and dashboard endpoint groups; the frontend additionally calls
the recommendations, sources, people, feed and insights endpoint groups,
none of which appears in any README's endpoint documentation. -/
theorem readme_documents_only_four_endpoint_groups :
    (["trends", "moodboards", "monitoring", "dashboard"].all
        fun g => readmeDocumentedEndpointGroups.contains g) = true
    ∧ (["recommendations", "sources", "people", "feed", "insights"].all
        fun g => frontendCalledEndpointGroups.contains g
          && !(readmeDocumentedEndpointGroups.contains g)) = true :=
  ⟨rfl, rfl⟩

/-- C4 counterexample: it is false that every error-handling path either
returns an HTTP error code or falls back to mock data — the axios response
interceptor on a 401 failure redirects the browser to `/login`, and the
TrendCard feedback handler and the Dashboard recommendations fetch silently
discard API failures. -/
theorem error_paths_redirect_and_silently_ignore :
    (responseErrorInterceptor (some 401)).redirectedTo = some "/login"
    ∧ (handleFeedback none FeedbackChoice.up true).2 = some ErrorAction.silentIgnore
    ∧ recommendationsFetchErrorAction = ErrorAction.silentIgnore :=
  ⟨rfl, rfl, rfl⟩

/-- C4 amended: besides returning HTTP error codes (every axios interceptor
path re-rejects the error) and the backend's mock fallback, the source also
silently discards errors (TrendCard feedback, recommendations fetch),
records errors as state messages (`useTrends`), and on a 401 the original
axios client clears the auth token and redirects the browser to `/login`
(the reworked client only logs a warning). -/
theorem error_paths_catalogued (cur : Option FeedbackChoice)
    (clicked : FeedbackChoice) (status : Option Nat) :
    responseErrorInterceptor (some 401)
      = { removedAuthToken := true, redirectedTo := some "/login",
          loggedWarning := false, rejected := true }
    ∧ responseErrorInterceptor (some 500)
      = { removedAuthToken := false, redirectedTo := none,
          loggedWarning := false, rejected := true }
    ∧ responseErrorInterceptorV2 (some 401)
      = { removedAuthToken := false, redirectedTo := none,
          loggedWarning := true, rejected := true }
    ∧ (responseErrorInterceptor status).rejected = true
    ∧ (responseErrorInterceptorV2 status).rejected = true
    ∧ (handleFeedback cur clicked true).2 = some ErrorAction.silentIgnore
    ∧ (handleFeedback cur clicked false).2 = none
    ∧ useTrendsErrorAction = ErrorAction.setErrorMessage
    ∧ recommendationsFetchErrorAction = ErrorAction.silentIgnore
    ∧ (∀ e url, analyzeTrend false (Except.error e) url = mockAnalysis url) := by
  refine ⟨rfl, rfl, rfl, ?_, ?_, rfl, rfl, rfl, rfl, fun _ _ => rfl⟩
  · unfold responseErrorInterceptor
    split_ifs <;> rfl
  · unfold responseErrorInterceptorV2
    split_ifs <;> rfl

theorem strStartsWith_append (p u : String) : strStartsWith (p ++ u) p = true := by
  simp [strStartsWith]

theorem fixProtocol_ok (u : String) :
    strStartsWith (fixProtocol u) "http://" = true
    ∨ strStartsWith (fixProtocol u) "https://" = true := by
  unfold fixProtocol
  split_ifs with h
  · exact (Bool.or_eq_true _ _).mp h
  · exact Or.inr (strStartsWith_append "https://" u)

theorem parseRow_accept_ok (i : Nat) (row : List String) (r : ParsedRow)
    (h : parseRow i row = RowStep.accept r) :
    r.name ≠ ""
    ∧ (strStartsWith r.url "http://" = true ∨ strStartsWith r.url "https://" = true)
    ∧ r.index = i := by
  unfold parseRow at h
  split_ifs at h with h1 h2 h3 h4
  cases h
  exact ⟨h3, fixProtocol_ok _, rfl⟩

theorem parseRows_mem : ∀ (rows : List (List String)) (i : Nat),
    ∀ r ∈ (parseRows i rows).1,
      r.name ≠ ""
      ∧ (strStartsWith r.url "http://" = true ∨ strStartsWith r.url "https://" = true)
      ∧ i ≤ r.index := by
  intro rows
  induction rows with
  | nil =>
    intro i r hr
    simp [parseRows] at hr
  | cons row rest ih =>
    intro i r hr
    rw [parseRows] at hr
    cases hstep : parseRow i row with
    | skip =>
      rw [hstep] at hr
      simp only [stepAccum] at hr
      obtain ⟨hn, hu, hi⟩ := ih (i + 1) r hr
      exact ⟨hn, hu, le_trans (Nat.le_succ i) hi⟩
    | issue m =>
      rw [hstep] at hr
      simp only [stepAccum] at hr
      obtain ⟨hn, hu, hi⟩ := ih (i + 1) r hr
      exact ⟨hn, hu, le_trans (Nat.le_succ i) hi⟩
    | accept r0 =>
      rw [hstep] at hr
      simp only [stepAccum, List.mem_cons] at hr
      rcases hr with hr | hr
      · subst hr
        obtain ⟨hn, hu, hi⟩ := parseRow_accept_ok i row r hstep
        exact ⟨hn, hu, le_of_eq hi.symm⟩
      · obtain ⟨hn, hu, hi⟩ := ih (i + 1) r hr
        exact ⟨hn, hu, le_trans (Nat.le_succ i) hi⟩

/-- C8: every row of the parsed Excel-import preview has a non-empty trimmed
site name and a URL beginning with `http://` or `https://` (with `https://`
prepended when the protocol was missing), the header row (raw index 0) is
never included, an input with fewer than two rows yields an empty preview
with an error message, and an empty preview always comes with an error
message. -/
theorem excel_parse_rows_validated (rawData : List (List String)) :
    (∀ r ∈ (parseFile rawData).rows,
        r.name ≠ ""
        ∧ (strStartsWith r.url "http://" = true ∨ strStartsWith r.url "https://" = true)
        ∧ 1 ≤ r.index)
    ∧ (rawData.length < 2 →
        (parseFile rawData).rows = [] ∧ (parseFile rawData).errorMsg.isSome = true)
    ∧ ((parseFile rawData).rows = [] → (parseFile rawData).errorMsg.isSome = true) := by
  refine ⟨?_, ?_, ?_⟩
  · intro r hr
    unfold parseFile at hr
    split_ifs at hr with h1 h2 h3 h4
    · simp at hr
    · simp at hr
    · exact parseRows_mem (rawData.drop 1) 1 r hr
    · exact parseRows_mem (rawData.drop 1) 1 r hr
    · exact parseRows_mem (rawData.drop 1) 1 r hr
  · intro h
    unfold parseFile
    rw [if_pos h]
    exact ⟨rfl, rfl⟩
  · intro hempty
    unfold parseFile at hempty ⊢
    split_ifs at hempty ⊢ with h1 h2 h3 h4
    all_goals
      first
        | rfl
        | exact absurd (by simpa using congrArg List.length hempty) h2

/-- Witness for C8 at concrete inputs: a single-row input errors out with an
empty preview, and a two-row input with a protocol-less URL yields one
validated preview row. -/
theorem excel_parse_witness :
    ([["Site", "URL"]].length < 2
      ∧ (parseFile [["Site", "URL"]]).rows = []
      ∧ (parseFile [["Site", "URL"]]).errorMsg.isSome = true)
    ∧ ∀ r ∈ (parseFile [["Site", "URL"], ["Shop", "shop.example.com"]]).rows,
        r.name ≠ ""
        ∧ (strStartsWith r.url "http://" = true ∨ strStartsWith r.url "https://" = true)
        ∧ 1 ≤ r.index := by
  constructor
  · have h := (excel_parse_rows_validated [["Site", "URL"]]).2.1 (by decide)
    exact ⟨by decide, h.1, h.2⟩
  · exact (excel_parse_rows_validated [["Site", "URL"], ["Shop", "shop.example.com"]]).1

theorem sortTrends_perm (s : String) (l : List TrendItem) :
    (sortTrends s l).Perm l := by
  unfold sortTrends
  split_ifs
  · exact List.perm_insertionSort byScore l
  · exact List.perm_insertionSort byEngagement l
  · exact List.perm_insertionSort byRecent l
  · exact List.Perm.refl l

theorem sortTrends_score_eq (l : List TrendItem) :
    sortTrends "score" l = List.insertionSort byScore l := rfl

theorem sortTrends_engagement_eq (l : List TrendItem) :
    sortTrends "engagement" l = List.insertionSort byEngagement l := rfl

theorem sortTrends_recent_eq (l : List TrendItem) :
    sortTrends "recent" l = List.insertionSort byRecent l := rfl

/-- A concrete fetched trend whose category is Tops. -/
def topsItem : TrendItem :=
  ⟨"7", "https://example.com/p/7", "Instagram", "Tops", [], [], 50, 10, 0⟩

/-- C9 counterexample: the Dashboard display computation is not a permutation
of the fetched list — with the category selector at `Dresses`, a fetched list
holding one `Tops` item is filtered down to the empty display list. -/
theorem display_not_permutation_of_fetched :
    computeDisplay [topsItem] "Dresses" "" "score" = []
    ∧ ¬ (computeDisplay [topsItem] "Dresses" "" "score").Perm [topsItem] := by
  refine ⟨rfl, ?_⟩
  intro hp
  have hlen := hp.length_eq
  simp [computeDisplay, filterTrends, sortTrends, topsItem] at hlen

/-- C9 amended: the Dashboard display computation returns a permutation of
the category/platform-filtered trends (with the mock trends substituted when
the fetched list is empty), ordered by non-increasing `trend_score` under the
`score` key, non-increasing `engagement_count` under `engagement`, and newest
`created_at` first under `recent`; the reworked Dashboard (which has no
client-side filter step) returns a permutation of the fetched list itself. -/
theorem display_permutes_filtered_and_sorts (fetched : List TrendItem)
    (category platform sortBy : String) :
    (computeDisplay fetched category platform sortBy).Perm
        (filterTrends category platform
          (if fetched.length > 0 then fetched else mockTrends))
    ∧ List.Sorted byScore (computeDisplay fetched category platform "score")
    ∧ List.Sorted byEngagement (computeDisplay fetched category platform "engagement")
    ∧ List.Sorted byRecent (computeDisplay fetched category platform "recent")
    ∧ (computeDisplayV2 fetched sortBy).Perm fetched
    ∧ List.Sorted byScore (computeDisplayV2 fetched "score")
    ∧ List.Sorted byEngagement (computeDisplayV2 fetched "engagement")
    ∧ List.Sorted byRecent (computeDisplayV2 fetched "recent") := by
  refine ⟨sortTrends_perm sortBy _, ?_, ?_, ?_, sortTrends_perm sortBy fetched, ?_, ?_, ?_⟩
  · rw [show computeDisplay fetched category platform "score"
        = sortTrends "score" (filterTrends category platform
            (if fetched.length > 0 then fetched else mockTrends)) from rfl,
      sortTrends_score_eq]
    exact List.sorted_insertionSort byScore _
  · rw [show computeDisplay fetched category platform "engagement"
        = sortTrends "engagement" (filterTrends category platform
            (if fetched.length > 0 then fetched else mockTrends)) from rfl,
      sortTrends_engagement_eq]
    exact List.sorted_insertionSort byEngagement _
  · rw [show computeDisplay fetched category platform "recent"
        = sortTrends "recent" (filterTrends category platform
            (if fetched.length > 0 then fetched else mockTrends)) from rfl,
      sortTrends_recent_eq]
    exact List.sorted_insertionSort byRecent _
  · rw [show computeDisplayV2 fetched "score" = sortTrends "score" fetched from rfl,
      sortTrends_score_eq]
    exact List.sorted_insertionSort byScore _
  · rw [show computeDisplayV2 fetched "engagement" = sortTrends "engagement" fetched from rfl,
      sortTrends_engagement_eq]
    exact List.sorted_insertionSort byEngagement _
  · rw [show computeDisplayV2 fetched "recent" = sortTrends "recent" fetched from rfl,
      sortTrends_recent_eq]
    exact List.sorted_insertionSort byRecent _

end TrendDashboard
